import Mathlib

/-!
# Verification of the spectrum-explorer color engine

A shallow embedding of `src/utils/colorConversions.ts` and the pixel-probe
handler of `src/components/ImageWorkspace.tsx`.  JavaScript numbers are
modelled as exact rationals (`ℚ`); `Math.round` is `⌊q + 1/2⌋` (round half
toward +∞), `Math.max`/`Math.min` are `max`/`min`, the JS `%` operator is the
truncated remainder, and stores into a `Uint8ClampedArray` clamp to `[0,255]`
and round half to even, as WebIDL prescribes.  `Math.pow` with a non-integer
exponent is transcendental, so the two LAB converters take an explicit
`pw : ℚ → ℚ → ℚ` parameter standing for `Math.pow`; every theorem that does
not depend on the value of `Math.pow` is proved for all `pw`.
-/

namespace ColorMagic

/-- The JS `Math.round`: round half toward positive infinity. -/
def jround (q : ℚ) : ℚ := (⌊q + 1/2⌋ : ℤ)

/-- JavaScript number truncation (`Math.trunc`, used by the `%` operator):
round toward zero. -/
def jsTrunc (q : ℚ) : ℚ := if 0 ≤ q then (⌊q⌋ : ℤ) else (⌈q⌉ : ℤ)

/-- The JavaScript `%` operator on numbers: truncated remainder,
`a % b = a - b * trunc(a / b)`. -/
def jsMod (a b : ℚ) : ℚ := a - b * jsTrunc (a / b)

/-- The `interface RGBColor` from `colorConversions.ts`. -/
structure RGBColor where
  r : ℚ
  g : ℚ
  b : ℚ
deriving DecidableEq, Repr

/-- The `interface HSVColor`. -/
structure HSVColor where
  h : ℚ
  s : ℚ
  v : ℚ
deriving DecidableEq, Repr

/-- The `interface CMYKColor`. -/
structure CMYKColor where
  c : ℚ
  m : ℚ
  y : ℚ
  k : ℚ
deriving DecidableEq, Repr

/-- The `interface LABColor`. -/
structure LABColor where
  l : ℚ
  a : ℚ
  b : ℚ
deriving DecidableEq, Repr

/-- The `interface YUVColor`. -/
structure YUVColor where
  y : ℚ
  u : ℚ
  v : ℚ
deriving DecidableEq, Repr

/-- The `type ColorModel = 'RGB' | 'HSV' | 'CMYK' | 'LAB' | 'YUV'`. -/
inductive ColorModel where
  | RGB
  | HSV
  | CMYK
  | LAB
  | YUV
deriving DecidableEq, Repr

/-- Function `rgbToHsv` from `colorConversions.ts` (lines 37-63). -/
def rgbToHsv (rgb : RGBColor) : HSVColor :=
  let r := rgb.r / 255
  let g := rgb.g / 255
  let b := rgb.b / 255
  let mx := max r (max g b)
  let mn := min r (min g b)
  let delta := mx - mn
  let h0 : ℚ :=
    if delta ≠ 0 then
      if mx = r then jsMod ((g - b) / delta) 6
      else if mx = g then (b - r) / delta + 2
      else (r - g) / delta + 4
    else 0
  let h1 := jround (h0 * 60)
  let h2 := if h1 < 0 then h1 + 360 else h1
  let s : ℚ := if mx = 0 then 0 else delta / mx
  { h := jround h2, s := jround (s * 100), v := jround (mx * 100) }

/-- Function `rgbToCmyk` from `colorConversions.ts` (lines 66-82). -/
def rgbToCmyk (rgb : RGBColor) : CMYKColor :=
  let r := rgb.r / 255
  let g := rgb.g / 255
  let b := rgb.b / 255
  let k := 1 - max r (max g b)
  let c : ℚ := if k = 1 then 0 else (1 - r - k) / (1 - k)
  let m : ℚ := if k = 1 then 0 else (1 - g - k) / (1 - k)
  let y : ℚ := if k = 1 then 0 else (1 - b - k) / (1 - k)
  { c := jround (c * 100), m := jround (m * 100), y := jround (y * 100),
    k := jround (k * 100) }

/-- Function `rgbToLab` from `colorConversions.ts` (lines 85-115); `pw` stands for
`Math.pow`. -/
def rgbToLab (pw : ℚ → ℚ → ℚ) (rgb : RGBColor) : LABColor :=
  let r0 := rgb.r / 255
  let g0 := rgb.g / 255
  let b0 := rgb.b / 255
  let r1 := if r0 > 0.04045 then pw ((r0 + 0.055) / 1.055) 2.4 else r0 / 12.92
  let g1 := if g0 > 0.04045 then pw ((g0 + 0.055) / 1.055) 2.4 else g0 / 12.92
  let b1 := if b0 > 0.04045 then pw ((b0 + 0.055) / 1.055) 2.4 else b0 / 12.92
  let x := (r1 * 0.4124 + g1 * 0.3576 + b1 * 0.1805) / 0.95047
  let y := (r1 * 0.2126 + g1 * 0.7152 + b1 * 0.0722) / 1.00000
  let z := (r1 * 0.0193 + g1 * 0.1192 + b1 * 0.9505) / 1.08883
  let fx := if x > 0.008856 then pw x (1/3) else 7.787 * x + 16/116
  let fy := if y > 0.008856 then pw y (1/3) else 7.787 * y + 16/116
  let fz := if z > 0.008856 then pw z (1/3) else 7.787 * z + 16/116
  { l := jround (116 * fy - 16), a := jround (500 * (fx - fy)),
    b := jround (200 * (fy - fz)) }

/-- Function `rgbToYuv` from `colorConversions.ts` (lines 118-132). -/
def rgbToYuv (rgb : RGBColor) : YUVColor :=
  let r := rgb.r / 255
  let g := rgb.g / 255
  let b := rgb.b / 255
  let y := 0.299 * r + 0.587 * g + 0.114 * b
  let u := -0.14713 * r - 0.28886 * g + 0.436 * b
  let v := 0.615 * r - 0.51499 * g - 0.10001 * b
  { y := jround (y * 255), u := jround ((u + 0.5) * 255),
    v := jround ((v + 0.5) * 255) }

/-- Function `hsvToRgb` from `colorConversions.ts` (lines 256-286). -/
def hsvToRgb (hsv : HSVColor) : RGBColor :=
  let h := hsv.h / 60
  let s := hsv.s / 100
  let v := hsv.v / 100
  let c := v * s
  let x := c * (1 - |jsMod h 2 - 1|)
  let m := v - c
  let rgb : ℚ × ℚ × ℚ :=
    if h < 1 then (c, x, 0)
    else if h < 2 then (x, c, 0)
    else if h < 3 then (0, c, x)
    else if h < 4 then (0, x, c)
    else if h < 5 then (x, 0, c)
    else (c, 0, x)
  { r := jround ((rgb.1 + m) * 255), g := jround ((rgb.2.1 + m) * 255),
    b := jround ((rgb.2.2 + m) * 255) }

/-- Function `cmykToRgb` from `colorConversions.ts` (lines 289-304). -/
def cmykToRgb (cmyk : CMYKColor) : RGBColor :=
  let c := cmyk.c / 100
  let m := cmyk.m / 100
  let y := cmyk.y / 100
  let k := cmyk.k / 100
  { r := jround (255 * (1 - c) * (1 - k)), g := jround (255 * (1 - m) * (1 - k)),
    b := jround (255 * (1 - y) * (1 - k)) }

/-- Function `labToRgb` from `colorConversions.ts` (lines 307-342); `pw` stands for
`Math.pow`. -/
def labToRgb (pw : ℚ → ℚ → ℚ) (lab : LABColor) : RGBColor :=
  let y0 := (lab.l + 16) / 116
  let x0 := lab.a / 500 + y0
  let z0 := y0 - lab.b / 200
  let x3 := x0 * x0 * x0
  let y3 := y0 * y0 * y0
  let z3 := z0 * z0 * z0
  let x1 := if x3 > 0.008856 then x3 else (x0 - 16/116) / 7.787
  let y1 := if y3 > 0.008856 then y3 else (y0 - 16/116) / 7.787
  let z1 := if z3 > 0.008856 then z3 else (z0 - 16/116) / 7.787
  let x2 := x1 * 0.95047
  let y2 := y1 * 1.00000
  let z2 := z1 * 1.08883
  let r0 := x2 * 3.2406 + y2 * (-1.5372) + z2 * (-0.4986)
  let g0 := x2 * (-0.9689) + y2 * 1.8758 + z2 * 0.0415
  let b0 := x2 * 0.0557 + y2 * (-0.2040) + z2 * 1.0570
  let r1 := if r0 > 0.0031308 then 1.055 * pw r0 (1/2.4) - 0.055 else 12.92 * r0
  let g1 := if g0 > 0.0031308 then 1.055 * pw g0 (1/2.4) - 0.055 else 12.92 * g0
  let b1 := if b0 > 0.0031308 then 1.055 * pw b0 (1/2.4) - 0.055 else 12.92 * b0
  { r := max 0 (min 255 (jround (r1 * 255))),
    g := max 0 (min 255 (jround (g1 * 255))),
    b := max 0 (min 255 (jround (b1 * 255))) }

/-- Function `yuvToRgb` from `colorConversions.ts` (lines 345-359). -/
def yuvToRgb (yuv : YUVColor) : RGBColor :=
  let y := yuv.y / 255
  let u := yuv.u / 255 - 0.5
  let v := yuv.v / 255 - 0.5
  let r := y + 1.403 * v
  let g := y - 0.344 * u - 0.714 * v
  let b := y + 1.770 * u
  { r := max 0 (min 255 (jround (r * 255))),
    g := max 0 (min 255 (jround (g * 255))),
    b := max 0 (min 255 (jround (b * 255))) }

/-- Printing a JS number: `getColorInModel` needs to print JS numbers; in this development it is only
ever applied to integer-valued rationals, which JS prints without a decimal
point. -/
def numStr (q : ℚ) : String := if q.den = 1 then toString q.num else toString q

/-- Function `getColorInModel` from `colorConversions.ts` (lines 135-154); the `default`
arm of the TS `switch` coincides with the `RGB` arm. -/
def getColorInModel (pw : ℚ → ℚ → ℚ) (rgb : RGBColor) (model : ColorModel) :
    String :=
  match model with
  | .RGB => "RGB(" ++ numStr rgb.r ++ ", " ++ numStr rgb.g ++ ", " ++
      numStr rgb.b ++ ")"
  | .HSV =>
    let hsv := rgbToHsv rgb
    "HSV(" ++ numStr hsv.h ++ "°, " ++ numStr hsv.s ++ "%, " ++
      numStr hsv.v ++ "%)"
  | .CMYK =>
    let cmyk := rgbToCmyk rgb
    "CMYK(" ++ numStr cmyk.c ++ "%, " ++ numStr cmyk.m ++ "%, " ++
      numStr cmyk.y ++ "%, " ++ numStr cmyk.k ++ "%)"
  | .LAB =>
    let lab := rgbToLab pw rgb
    "LAB(" ++ numStr lab.l ++ ", " ++ numStr lab.a ++ ", " ++ numStr lab.b ++ ")"
  | .YUV =>
    let yuv := rgbToYuv rgb
    "YUV(" ++ numStr yuv.y ++ ", " ++ numStr yuv.u ++ ", " ++ numStr yuv.v ++ ")"

/-! ## The buffer transformer

`ImageData.data` always has length `4 * width * height`, so a buffer is
modelled as a list of RGBA quadruples, one per iteration of the
`for (let i = 0; i < data.length; i += 4)` loop. -/

/-- One RGBA quadruple of a `Uint8ClampedArray` pixel buffer. -/
structure Pixel where
  r : ℕ
  g : ℕ
  b : ℕ
  a : ℕ
deriving DecidableEq, Repr

/-- Storing a JS number into a `Uint8ClampedArray` slot: clamp to `[0, 255]`,
then round half to even (WebIDL clamped conversion). -/
def ucl (q : ℚ) : ℕ :=
  if q ≤ 0 then 0
  else if 255 ≤ q then 255
  else
    let f := ⌊q⌋
    let frac := q - f
    (if frac < 1/2 then f
     else if 1/2 < frac then f + 1
     else if f % 2 = 0 then f else f + 1).toNat

/-- The per-channel delta record `adjustments.rgb`; a missing field is `none`
(the code reads it as `adjustments.rgb.r || 0`). -/
structure RGBAdj where
  r : Option ℚ := none
  g : Option ℚ := none
  b : Option ℚ := none
deriving DecidableEq, Repr

/-- The per-channel delta record `adjustments.hsv`. -/
structure HSVAdj where
  h : Option ℚ := none
  s : Option ℚ := none
  v : Option ℚ := none
deriving DecidableEq, Repr

/-- The per-channel delta record `adjustments.cmyk`. -/
structure CMYKAdj where
  c : Option ℚ := none
  m : Option ℚ := none
  y : Option ℚ := none
  k : Option ℚ := none
deriving DecidableEq, Repr

/-- The per-channel delta record `adjustments.lab`. -/
structure LABAdj where
  l : Option ℚ := none
  a : Option ℚ := none
  b : Option ℚ := none
deriving DecidableEq, Repr

/-- The per-channel delta record `adjustments.yuv`. -/
structure YUVAdj where
  y : Option ℚ := none
  u : Option ℚ := none
  v : Option ℚ := none
deriving DecidableEq, Repr

/-- The `ColorAdjustments` record: an optional delta record per model
(`ColorAdjustmentPanel.tsx`); a missing sub-record is `none`, mirroring the
`if (adjustments.rgb)` truthiness tests. -/
structure ColorAdjustments where
  rgb : Option RGBAdj := none
  hsv : Option HSVAdj := none
  cmyk : Option CMYKAdj := none
  lab : Option LABAdj := none
  yuv : Option YUVAdj := none
deriving DecidableEq, Repr

/-- Reading `x || 0` on an optional numeric field. -/
def orZero (o : Option ℚ) : ℚ := o.getD 0

/-- The manual-adjustment stage of `transformImageData`
(`colorConversions.ts` lines 163-211): the `switch (model)` inside
`if (adjustments)`. -/
def adjustRgb (pw : ℚ → ℚ → ℚ) (model : ColorModel)
    (adjustments : Option ColorAdjustments) (rgb : RGBColor) : RGBColor :=
  match adjustments with
  | none => rgb
  | some adj =>
    match model with
    | .RGB =>
      match adj.rgb with
      | none => rgb
      | some d =>
        { r := max 0 (min 255 (rgb.r + orZero d.r)),
          g := max 0 (min 255 (rgb.g + orZero d.g)),
          b := max 0 (min 255 (rgb.b + orZero d.b)) }
    | .HSV =>
      match adj.hsv with
      | none => rgb
      | some d =>
        let hsv := rgbToHsv rgb
        hsvToRgb
          { h := jsMod (hsv.h + orZero d.h + 360) 360,
            s := max 0 (min 100 (hsv.s + orZero d.s)),
            v := max 0 (min 100 (hsv.v + orZero d.v)) }
    | .CMYK =>
      match adj.cmyk with
      | none => rgb
      | some d =>
        let cmyk := rgbToCmyk rgb
        cmykToRgb
          { c := max 0 (min 100 (cmyk.c + orZero d.c)),
            m := max 0 (min 100 (cmyk.m + orZero d.m)),
            y := max 0 (min 100 (cmyk.y + orZero d.y)),
            k := max 0 (min 100 (cmyk.k + orZero d.k)) }
    | .LAB =>
      match adj.lab with
      | none => rgb
      | some d =>
        let lab := rgbToLab pw rgb
        labToRgb pw
          { l := max 0 (min 100 (lab.l + orZero d.l)),
            a := max (-128) (min 127 (lab.a + orZero d.a)),
            b := max (-128) (min 127 (lab.b + orZero d.b)) }
    | .YUV =>
      match adj.yuv with
      | none => rgb
      | some d =>
        let yuv := rgbToYuv rgb
        yuvToRgb
          { y := max 0 (min 255 (yuv.y + orZero d.y)),
            u := max 0 (min 255 (yuv.u + orZero d.u)),
            v := max 0 (min 255 (yuv.v + orZero d.v)) }

/-- The visualization stage of `transformImageData`
(`colorConversions.ts` lines 213-249): the second `switch (model)`, writing
three bytes of the output pixel; the alpha byte is never written, so it keeps
the value copied from the input. -/
def vizPixel (pw : ℚ → ℚ → ℚ) (model : ColorModel) (alpha : ℕ)
    (rgb : RGBColor) : Pixel :=
  match model with
  | .HSV =>
    let hsv := rgbToHsv rgb
    { r := ucl (min 255 (rgb.r * (1 + hsv.s / 200))),
      g := ucl (min 255 (rgb.g * (1 + hsv.s / 200))),
      b := ucl (min 255 (rgb.b * (1 + hsv.v / 200))),
      a := alpha }
  | .CMYK =>
    let cmyk := rgbToCmyk rgb
    { r := ucl (max 0 (255 - (cmyk.c * 2.55 + cmyk.k * 2.55))),
      g := ucl (max 0 (255 - (cmyk.m * 2.55 + cmyk.k * 2.55))),
      b := ucl (max 0 (255 - (cmyk.y * 2.55 + cmyk.k * 2.55))),
      a := alpha }
  | .LAB =>
    let lab := rgbToLab pw rgb
    { r := ucl (max 0 (min 255 (lab.l * 2.55))),
      g := ucl (max 0 (min 255 (lab.a + 128))),
      b := ucl (max 0 (min 255 (lab.b + 128))),
      a := alpha }
  | .YUV =>
    let yuv := rgbToYuv rgb
    { r := ucl yuv.y, g := ucl yuv.u, b := ucl yuv.v, a := alpha }
  | .RGB =>
    { r := ucl rgb.r, g := ucl rgb.g, b := ucl rgb.b, a := alpha }

/-- One iteration of the `transformImageData` loop: read the RGB bytes,
apply the adjustment stage, then the visualization stage. -/
def transformPixel (pw : ℚ → ℚ → ℚ) (model : ColorModel)
    (adjustments : Option ColorAdjustments) (px : Pixel) : Pixel :=
  vizPixel pw model px.a
    (adjustRgb pw model adjustments { r := px.r, g := px.g, b := px.b })

/-- Function `transformImageData` from `colorConversions.ts` (lines 157-253), as a
function on the copied pixel data. -/
def transformImageData (pw : ℚ → ℚ → ℚ) (buf : List Pixel) (model : ColorModel)
    (adjustments : Option ColorAdjustments) : List Pixel :=
  buf.map (transformPixel pw model adjustments)

/-- Function `transformImageData` with the buffer ownership made explicit: the function
allocates `data` as a copy of the caller's `imageData.data`
(`new Uint8ClampedArray(imageData.data)`, line 158), every write in the loop
targets `data`, and a fresh `ImageData` built from `data` is returned
(line 252).  The result pairs the caller's buffer as it stands after the call
with the returned buffer. -/
def transformImageDataAlloc (pw : ℚ → ℚ → ℚ) (buf : List Pixel)
    (model : ColorModel) (adjustments : Option ColorAdjustments) :
    List Pixel × List Pixel :=
  let data := buf
  (buf, data.map (transformPixel pw model adjustments))

/-! ## The pixel probe of `ImageWorkspace.tsx`

The probe reads one pixel through `CanvasRenderingContext2D.getImageData`,
an external browser API.  Per the HTML standard, `getImageData(x, y, 1, 1)`
returns transparent black for any requested pixel outside the canvas bitmap,
and throws (`SecurityError`) only when the canvas is origin-tainted. -/

/-- A canvas bitmap: dimensions, pixel contents, and whether the canvas is
origin-tainted (in which case reading pixels throws). -/
structure Canvas where
  width : ℕ
  height : ℕ
  pixels : ℕ → ℕ → Pixel
  tainted : Bool

/-- Modelled from the HTML standard for the external
`CanvasRenderingContext2D.getImageData(x, y, 1, 1)` call (the API itself is
not part of this repository): out-of-bounds pixels read as transparent black
`(0,0,0,0)`; a tainted canvas throws a `SecurityError`. -/
def getImageData1 (cv : Canvas) (x y : ℤ) : Except Unit Pixel :=
  if cv.tainted then .error ()
  else .ok
    (if 0 ≤ x ∧ x < (cv.width : ℤ) ∧ 0 ≤ y ∧ y < (cv.height : ℤ) then
      cv.pixels x.toNat y.toNat
    else { r := 0, g := 0, b := 0, a := 0 })

/-- The body of the `try` block in `handleInteraction`
(`ImageWorkspace.tsx` lines 143-150): read the pixel, format it. -/
def probeBody (pw : ℚ → ℚ → ℚ) (cv : Canvas) (model : ColorModel) (x y : ℤ) :
    Except Unit String := do
  let px ← getImageData1 cv x y
  pure (getColorInModel pw { r := px.r, g := px.g, b := px.b } model)

/-- Function `handleInteraction` from `ImageWorkspace.tsx` (lines 131-154), as a
function from the probe coordinate to the `colorInfo` update: `some s` models
`setColorInfo(s)`, `none` models no reading (the `catch` block ignores any
exception, so none escapes to the caller). -/
def handleInteraction (pw : ℚ → ℚ → ℚ) (cv : Canvas) (model : ColorModel)
    (x y : ℤ) : Option String :=
  match probeBody pw cv model x y with
  | .ok s => some s
  | .error _ => none

/-- A fixed stand-in for `Math.pow`, used to instantiate `pw` in concrete
computations whose control flow never reaches a `Math.pow` call. -/
def qpow0 : ℚ → ℚ → ℚ := fun _ _ => 0

/-! ## Arithmetic facts about the JS primitives -/

/-- A JS number holding an integer value. -/
def IsJsInt (q : ℚ) : Prop := ∃ n : ℤ, q = (n : ℚ)

theorem isJsInt_jround (q : ℚ) : IsJsInt (jround q) := ⟨_, rfl⟩

theorem jround_nonneg {q : ℚ} (h : 0 ≤ q) : 0 ≤ jround q := by
  have h2 : (0 : ℤ) ≤ ⌊q + 1/2⌋ := Int.le_floor.mpr (by push_cast; linarith)
  unfold jround
  exact_mod_cast h2

theorem jround_le_255 {q : ℚ} (h : q ≤ 255) : jround q ≤ 255 := by
  have h2 : ⌊q + 1/2⌋ < 256 := Int.floor_lt.mpr (by push_cast; linarith)
  have h3 : ⌊q + 1/2⌋ ≤ 255 := by omega
  unfold jround
  exact_mod_cast h3

theorem jround_ge {q : ℚ} {n : ℤ} (h : (n : ℚ) ≤ q) : (n : ℚ) ≤ jround q := by
  have h2 : n ≤ ⌊q + 1/2⌋ := Int.le_floor.mpr (by linarith)
  unfold jround
  exact_mod_cast h2

theorem jsMod_nonneg {a b : ℚ} (ha : 0 ≤ a) (hb : 0 < b) : 0 ≤ jsMod a b := by
  unfold jsMod jsTrunc
  rw [if_pos (div_nonneg ha hb.le)]
  have h1 : ((⌊a / b⌋ : ℚ)) ≤ a / b := Int.floor_le _
  have h2 : b * ((⌊a / b⌋ : ℚ)) ≤ b * (a / b) := by
    exact mul_le_mul_of_nonneg_left h1 hb.le
  have h3 : b * (a / b) = a := by field_simp
  linarith

theorem jsMod_lt {a b : ℚ} (ha : 0 ≤ a) (hb : 0 < b) : jsMod a b < b := by
  unfold jsMod jsTrunc
  rw [if_pos (div_nonneg ha hb.le)]
  have h1 : a / b < (⌊a / b⌋ : ℚ) + 1 := Int.lt_floor_add_one _
  have h2 : b * (a / b) < b * ((⌊a / b⌋ : ℚ) + 1) := by
    exact mul_lt_mul_of_pos_left h1 hb
  have h3 : b * (a / b) = a := by field_simp
  nlinarith

theorem jsMod_gt_neg {a b : ℚ} (hb : 0 < b) : -b < jsMod a b := by
  by_cases ha : 0 ≤ a
  · linarith [jsMod_nonneg ha hb]
  · unfold jsMod jsTrunc
    rw [if_neg (by linarith [lt_of_not_le ha, div_neg_of_neg_of_pos (lt_of_not_le ha) hb])]
    have h1 : (⌈a / b⌉ : ℚ) < a / b + 1 := Int.ceil_lt_add_one _
    have h2 : b * ((⌈a / b⌉ : ℚ)) < b * (a / b + 1) := by
      exact mul_lt_mul_of_pos_left h1 hb
    have h3 : b * (a / b) = a := by field_simp
    nlinarith

theorem jsMod_add_cancel {a b : ℚ} (ha : 0 ≤ a) (hb : 0 < b) :
    jsMod (a + b) b = jsMod a b := by
  unfold jsMod jsTrunc
  rw [if_pos (div_nonneg (by linarith) hb.le), if_pos (div_nonneg ha hb.le)]
  have h1 : (a + b) / b = a / b + 1 := by field_simp
  rw [h1, Int.floor_add_one]
  push_cast
  ring

/-- The hue field produced by `rgbToHsv` is never negative: the sector value
is greater than `-6`, so after scaling by 60 and rounding, the `if (h < 0)
h += 360` fix-up lands in `[0, 360)`. -/
theorem rgbToHsv_h_nonneg (rgb : RGBColor) : 0 ≤ (rgbToHsv rgb).h := by
  have key : ∀ h0 : ℚ, -6 ≤ h0 →
      0 ≤ jround (if jround (h0 * 60) < 0 then jround (h0 * 60) + 360
                  else jround (h0 * 60)) := by
    intro h0 hh0
    by_cases hc : jround (h0 * 60) < 0
    · rw [if_pos hc]
      apply jround_nonneg
      have h1 : ((-360 : ℤ) : ℚ) ≤ jround (h0 * 60) := jround_ge (by push_cast; linarith)
      push_cast at h1
      linarith
    · rw [if_neg hc]
      exact jround_nonneg (le_of_not_lt hc)
  have hmn : min (rgb.r / 255) (min (rgb.g / 255) (rgb.b / 255)) ≤
      max (rgb.r / 255) (max (rgb.g / 255) (rgb.b / 255)) :=
    le_trans (min_le_left _ _) (le_max_left _ _)
  simp only [rgbToHsv]
  apply key
  split_ifs with hd h1 h2
  · linarith [jsMod_gt_neg (a := (rgb.g / 255 - rgb.b / 255) /
      (max (rgb.r / 255) (max (rgb.g / 255) (rgb.b / 255)) -
       min (rgb.r / 255) (min (rgb.g / 255) (rgb.b / 255)))) (show (0:ℚ) < 6 by norm_num)]
  · have hdpos : 0 < max (rgb.r / 255) (max (rgb.g / 255) (rgb.b / 255)) -
        min (rgb.r / 255) (min (rgb.g / 255) (rgb.b / 255)) :=
      lt_of_le_of_ne (by linarith) (Ne.symm hd)
    have hb : min (rgb.r / 255) (min (rgb.g / 255) (rgb.b / 255)) ≤ rgb.b / 255 :=
      le_trans (min_le_right _ _) (min_le_right _ _)
    have hr : rgb.r / 255 ≤ max (rgb.r / 255) (max (rgb.g / 255) (rgb.b / 255)) :=
      le_max_left _ _
    have hq : (-1 : ℚ) ≤ (rgb.b / 255 - rgb.r / 255) /
        (max (rgb.r / 255) (max (rgb.g / 255) (rgb.b / 255)) -
         min (rgb.r / 255) (min (rgb.g / 255) (rgb.b / 255))) := by
      rw [le_div_iff₀ hdpos]
      linarith
    linarith
  · have hdpos : 0 < max (rgb.r / 255) (max (rgb.g / 255) (rgb.b / 255)) -
        min (rgb.r / 255) (min (rgb.g / 255) (rgb.b / 255)) :=
      lt_of_le_of_ne (by linarith) (Ne.symm hd)
    have hrm : min (rgb.r / 255) (min (rgb.g / 255) (rgb.b / 255)) ≤ rgb.r / 255 :=
      min_le_left _ _
    have hg : rgb.g / 255 ≤ max (rgb.r / 255) (max (rgb.g / 255) (rgb.b / 255)) :=
      le_trans (le_max_left _ _) (le_max_right _ _)
    have hq : (-1 : ℚ) ≤ (rgb.r / 255 - rgb.g / 255) /
        (max (rgb.r / 255) (max (rgb.g / 255) (rgb.b / 255)) -
         min (rgb.r / 255) (min (rgb.g / 255) (rgb.b / 255))) := by
      rw [le_div_iff₀ hdpos]
      linarith
    linarith
  · norm_num

theorem hsvToRgb_mem {hsv : HSVColor} (hh : 0 ≤ hsv.h)
    (hs0 : 0 ≤ hsv.s) (hs1 : hsv.s ≤ 100) (hv0 : 0 ≤ hsv.v) (hv1 : hsv.v ≤ 100) :
    (0 ≤ (hsvToRgb hsv).r ∧ (hsvToRgb hsv).r ≤ 255) ∧
    (0 ≤ (hsvToRgb hsv).g ∧ (hsvToRgb hsv).g ≤ 255) ∧
    (0 ≤ (hsvToRgb hsv).b ∧ (hsvToRgb hsv).b ≤ 255) := by
  have hS1 : hsv.s / 100 ≤ 1 := (div_le_one (by norm_num : (0:ℚ) < 100)).mpr hs1
  have hV0 : 0 ≤ hsv.v / 100 := by positivity
  have hV1 : hsv.v / 100 ≤ 1 := (div_le_one (by norm_num : (0:ℚ) < 100)).mpr hv1
  have hc0 : 0 ≤ hsv.v / 100 * (hsv.s / 100) := by positivity
  have hc1 : hsv.v / 100 * (hsv.s / 100) ≤ hsv.v / 100 := mul_le_of_le_one_right hV0 hS1
  have hT0 : 0 ≤ jsMod (hsv.h / 60) 2 := jsMod_nonneg (by positivity) (by norm_num)
  have hT2 : jsMod (hsv.h / 60) 2 < 2 := jsMod_lt (by positivity) (by norm_num)
  have habs : |jsMod (hsv.h / 60) 2 - 1| ≤ 1 := abs_le.mpr ⟨by linarith, by linarith⟩
  have hA0 : 0 ≤ 1 - |jsMod (hsv.h / 60) 2 - 1| := by linarith
  have hA1 : 1 - |jsMod (hsv.h / 60) 2 - 1| ≤ 1 := by
    have := abs_nonneg (jsMod (hsv.h / 60) 2 - 1)
    linarith
  have hx0 : 0 ≤ hsv.v / 100 * (hsv.s / 100) * (1 - |jsMod (hsv.h / 60) 2 - 1|) :=
    mul_nonneg hc0 hA0
  have hx1 : hsv.v / 100 * (hsv.s / 100) * (1 - |jsMod (hsv.h / 60) 2 - 1|) ≤
      hsv.v / 100 * (hsv.s / 100) := mul_le_of_le_one_right hc0 hA1
  simp only [hsvToRgb]
  split_ifs <;>
    exact ⟨⟨jround_nonneg (by dsimp only; linarith), jround_le_255 (by dsimp only; linarith)⟩,
           ⟨jround_nonneg (by dsimp only; linarith), jround_le_255 (by dsimp only; linarith)⟩,
           ⟨jround_nonneg (by dsimp only; linarith), jround_le_255 (by dsimp only; linarith)⟩⟩

/-- Clamping a rounded value with `Math.max(0, Math.min(255, ...))` yields an
integer in `[0, 255]`. -/
theorem clamp_jround_mem (t : ℚ) :
    IsJsInt (max 0 (min 255 (jround t))) ∧
    0 ≤ max 0 (min 255 (jround t)) ∧ max 0 (min 255 (jround t)) ≤ 255 := by
  refine ⟨⟨max 0 (min 255 ⌊t + 1/2⌋), ?_⟩, le_max_left _ _,
    max_le (by norm_num) (min_le_left _ _)⟩
  unfold jround
  push_cast
  norm_num

/-- The alpha byte survives one loop iteration of `transformImageData`
untouched: every arm of the visualization `switch` writes only the first three
bytes of the pixel. -/
theorem transformPixel_alpha (pw : ℚ → ℚ → ℚ) (model : ColorModel)
    (adjustments : Option ColorAdjustments) (px : Pixel) :
    (transformPixel pw model adjustments px).a = px.a := by
  cases model <;> rfl


/-- Function `cmykToRgb` stays in `[0, 255]` when all four inks are valid percentages. -/
theorem cmykToRgb_mem {cmyk : CMYKColor}
    (hc0 : 0 ≤ cmyk.c) (hc1 : cmyk.c ≤ 100) (hm0 : 0 ≤ cmyk.m) (hm1 : cmyk.m ≤ 100)
    (hy0 : 0 ≤ cmyk.y) (hy1 : cmyk.y ≤ 100) (hk0 : 0 ≤ cmyk.k) (hk1 : cmyk.k ≤ 100) :
    (0 ≤ (cmykToRgb cmyk).r ∧ (cmykToRgb cmyk).r ≤ 255) ∧
    (0 ≤ (cmykToRgb cmyk).g ∧ (cmykToRgb cmyk).g ≤ 255) ∧
    (0 ≤ (cmykToRgb cmyk).b ∧ (cmykToRgb cmyk).b ≤ 255) := by
  have h100 : (0:ℚ) < 100 := by norm_num
  have hC0 : 0 ≤ 1 - cmyk.c / 100 := sub_nonneg.mpr ((div_le_one h100).mpr hc1)
  have hC1 : 1 - cmyk.c / 100 ≤ 1 := by
    have : 0 ≤ cmyk.c / 100 := by positivity
    linarith
  have hM0 : 0 ≤ 1 - cmyk.m / 100 := sub_nonneg.mpr ((div_le_one h100).mpr hm1)
  have hM1 : 1 - cmyk.m / 100 ≤ 1 := by
    have : 0 ≤ cmyk.m / 100 := by positivity
    linarith
  have hY0 : 0 ≤ 1 - cmyk.y / 100 := sub_nonneg.mpr ((div_le_one h100).mpr hy1)
  have hY1 : 1 - cmyk.y / 100 ≤ 1 := by
    have : 0 ≤ cmyk.y / 100 := by positivity
    linarith
  have hK0 : 0 ≤ 1 - cmyk.k / 100 := sub_nonneg.mpr ((div_le_one h100).mpr hk1)
  have hK1 : 1 - cmyk.k / 100 ≤ 1 := by
    have : 0 ≤ cmyk.k / 100 := by positivity
    linarith
  simp only [cmykToRgb]
  exact ⟨⟨jround_nonneg (by nlinarith), jround_le_255 (by nlinarith)⟩,
         ⟨jround_nonneg (by nlinarith), jround_le_255 (by nlinarith)⟩,
         ⟨jround_nonneg (by nlinarith), jround_le_255 (by nlinarith)⟩⟩

/-! ## The claims -/

/-- Claim C1 (code-bug evidence): the YUV round trip is far from the identity.
`rgbToYuv` uses the BT.601 U/V chroma combinations, but `yuvToRgb` applies the
inverse of a different (YCbCr-style) matrix, so the converters are not
algebraic inverses of one another as §4.1 of the spec requires: the round trip
of `(200, 0, 0)` returns `(233, 0, 8)`, a red drift of 33.  The HSV round trip
of `(51, 68, 238)` returns `(50, 65, 237)`, a green drift of 3, exceeding the
claimed ±2 as well. -/
theorem yuv_roundTrip_failure :
    yuvToRgb (rgbToYuv { r := 200, g := 0, b := 0 }) = { r := 233, g := 0, b := 8 } ∧
    ¬|(yuvToRgb (rgbToYuv { r := 200, g := 0, b := 0 })).r - 200| ≤ 2 ∧
    hsvToRgb (rgbToHsv { r := 51, g := 68, b := 238 }) = { r := 50, g := 65, b := 237 } ∧
    ¬|(hsvToRgb (rgbToHsv { r := 51, g := 68, b := 238 })).g - 68| ≤ 2 := by
  have h1 : yuvToRgb (rgbToYuv { r := 200, g := 0, b := 0 }) =
      { r := 233, g := 0, b := 8 } := by
    norm_num [yuvToRgb, rgbToYuv, jround, max_def, min_def]
  have h2 : hsvToRgb (rgbToHsv { r := 51, g := 68, b := 238 }) =
      { r := 50, g := 65, b := 237 } := by
    norm_num [hsvToRgb, rgbToHsv, jround, jsMod, jsTrunc, max_def, min_def,
      abs_of_nonneg]
  refine ⟨h1, ?_, h2, ?_⟩
  · rw [h1]
    norm_num
  · rw [h2]
    norm_num

/-- Claim C5: `transformImageData` works on a fresh copy of the caller buffer and
never writes to the input: with the allocation made explicit, the caller
buffer after the call is the input unchanged, and the returned buffer is the
transform of the copy. -/
theorem transform_input_unmodified (pw : ℚ → ℚ → ℚ) (buf : List Pixel)
    (model : ColorModel) (adjustments : Option ColorAdjustments) :
    (transformImageDataAlloc pw buf model adjustments).1 = buf ∧
    (transformImageDataAlloc pw buf model adjustments).2 =
      transformImageData pw buf model adjustments :=
  ⟨rfl, rfl⟩

/-- Claim C6: `rgbToCmyk` takes the guarded branch whenever `k = 1`, forcing
`c = m = y = 0` (no division by zero is reachable), and the two endpoint
evaluations hold: black maps to `{0,0,0,100}`, white to `{0,0,0,0}`. -/
theorem rgbToCmyk_black_guard :
    (∀ rgb : RGBColor,
      1 - max (rgb.r / 255) (max (rgb.g / 255) (rgb.b / 255)) = 1 →
      (rgbToCmyk rgb).c = 0 ∧ (rgbToCmyk rgb).m = 0 ∧ (rgbToCmyk rgb).y = 0 ∧
        (rgbToCmyk rgb).k = 100) ∧
    rgbToCmyk { r := 0, g := 0, b := 0 } = { c := 0, m := 0, y := 0, k := 100 } ∧
    rgbToCmyk { r := 255, g := 255, b := 255 } = { c := 0, m := 0, y := 0, k := 0 } := by
  refine ⟨fun rgb hk => ?_, ?_, ?_⟩
  · simp only [rgbToCmyk]
    rw [hk]
    norm_num [jround]
  · norm_num [rgbToCmyk, jround, max_def, min_def]
  · norm_num [rgbToCmyk, jround, max_def, min_def]

/-- Witness for claim C6 (`rgbToCmyk_black_guard`): the guarded branch at pure black. -/
theorem rgbToCmyk_black_guard_witness :
    (rgbToCmyk { r := 0, g := 0, b := 0 }).c = 0 ∧
    (rgbToCmyk { r := 0, g := 0, b := 0 }).k = 100 :=
  ⟨(rgbToCmyk_black_guard.1 { r := 0, g := 0, b := 0 } (by norm_num [max_def])).1,
   (rgbToCmyk_black_guard.1 { r := 0, g := 0, b := 0 } (by norm_num [max_def])).2.2.2⟩

/-- Claim C10: at least one of the `c`, `m`, `y` inks returned by `rgbToCmyk` is
exactly 0: the channel attaining the maximum has zero ink, and the pure-black
branch forces all three to 0. -/
theorem rgbToCmyk_some_ink_zero (rgb : RGBColor)
    (_hr0 : 0 ≤ rgb.r) (_hr1 : rgb.r ≤ 255) (_hri : IsJsInt rgb.r)
    (_hg0 : 0 ≤ rgb.g) (_hg1 : rgb.g ≤ 255) (_hgi : IsJsInt rgb.g)
    (_hb0 : 0 ≤ rgb.b) (_hb1 : rgb.b ≤ 255) (_hbi : IsJsInt rgb.b) :
    (rgbToCmyk rgb).c = 0 ∨ (rgbToCmyk rgb).m = 0 ∨ (rgbToCmyk rgb).y = 0 := by
  simp only [rgbToCmyk]
  by_cases hk : 1 - max (rgb.r / 255) (max (rgb.g / 255) (rgb.b / 255)) = 1
  · left
    rw [if_pos hk]
    norm_num [jround]
  · rcases max_choice (rgb.r / 255) (max (rgb.g / 255) (rgb.b / 255)) with h1 | h1
    · left
      rw [if_neg hk, h1]
      have e : 1 - rgb.r / 255 - (1 - rgb.r / 255) = 0 := by ring
      rw [e, zero_div]
      norm_num [jround]
    · rcases max_choice (rgb.g / 255) (rgb.b / 255) with h2 | h2
      · right; left
        rw [if_neg hk, h1, h2]
        have e : 1 - rgb.g / 255 - (1 - rgb.g / 255) = 0 := by ring
        rw [e, zero_div]
        norm_num [jround]
      · right; right
        rw [if_neg hk, h1, h2]
        have e : 1 - rgb.b / 255 - (1 - rgb.b / 255) = 0 := by ring
        rw [e, zero_div]
        norm_num [jround]

/-- Witness for claim C10 (`rgbToCmyk_some_ink_zero`) at `(3, 7, 2)`. -/
theorem rgbToCmyk_some_ink_zero_witness :
    (rgbToCmyk { r := 3, g := 7, b := 2 }).c = 0 ∨
    (rgbToCmyk { r := 3, g := 7, b := 2 }).m = 0 ∨
    (rgbToCmyk { r := 3, g := 7, b := 2 }).y = 0 :=
  rgbToCmyk_some_ink_zero { r := 3, g := 7, b := 2 }
    (by norm_num) (by norm_num) ⟨3, by norm_num⟩
    (by norm_num) (by norm_num) ⟨7, by norm_num⟩
    (by norm_num) (by norm_num) ⟨2, by norm_num⟩

/-- Claim C4 (counterexample): `hsvToRgb` does not clamp; on the out-of-range but
type-correct input `{h:0, s:300, v:100}` it returns a green channel of `-510`,
far outside `[0, 255]`. -/
theorem hsvToRgb_not_clamped :
    (hsvToRgb { h := 0, s := 300, v := 100 }).g = -510 ∧
    ¬(0 ≤ (hsvToRgb { h := 0, s := 300, v := 100 }).g) := by
  have h : (hsvToRgb { h := 0, s := 300, v := 100 }).g = -510 := by
    norm_num [hsvToRgb, jround, jsMod, jsTrunc]
  refine ⟨h, ?_⟩
  rw [h]
  norm_num

/-- Claim C4 (amended): every inverse converter rounds its channels to integer
values; `labToRgb` and `yuvToRgb` additionally clamp into `[0, 255]` on their
full domains, while `hsvToRgb` and `cmykToRgb` do not clamp and stay in
`[0, 255]` only for inputs inside the model ranges (`h ≥ 0`,
`s, v ∈ [0, 100]`; inks in `[0, 100]`). -/
theorem inverse_converters_round_and_clamp :
    (∀ hsv : HSVColor,
      IsJsInt (hsvToRgb hsv).r ∧ IsJsInt (hsvToRgb hsv).g ∧ IsJsInt (hsvToRgb hsv).b) ∧
    (∀ cmyk : CMYKColor,
      IsJsInt (cmykToRgb cmyk).r ∧ IsJsInt (cmykToRgb cmyk).g ∧ IsJsInt (cmykToRgb cmyk).b) ∧
    (∀ (pw : ℚ → ℚ → ℚ) (lab : LABColor),
      (IsJsInt (labToRgb pw lab).r ∧ 0 ≤ (labToRgb pw lab).r ∧ (labToRgb pw lab).r ≤ 255) ∧
      (IsJsInt (labToRgb pw lab).g ∧ 0 ≤ (labToRgb pw lab).g ∧ (labToRgb pw lab).g ≤ 255) ∧
      (IsJsInt (labToRgb pw lab).b ∧ 0 ≤ (labToRgb pw lab).b ∧ (labToRgb pw lab).b ≤ 255)) ∧
    (∀ yuv : YUVColor,
      (IsJsInt (yuvToRgb yuv).r ∧ 0 ≤ (yuvToRgb yuv).r ∧ (yuvToRgb yuv).r ≤ 255) ∧
      (IsJsInt (yuvToRgb yuv).g ∧ 0 ≤ (yuvToRgb yuv).g ∧ (yuvToRgb yuv).g ≤ 255) ∧
      (IsJsInt (yuvToRgb yuv).b ∧ 0 ≤ (yuvToRgb yuv).b ∧ (yuvToRgb yuv).b ≤ 255)) ∧
    (∀ hsv : HSVColor, 0 ≤ hsv.h → 0 ≤ hsv.s → hsv.s ≤ 100 → 0 ≤ hsv.v → hsv.v ≤ 100 →
      (0 ≤ (hsvToRgb hsv).r ∧ (hsvToRgb hsv).r ≤ 255) ∧
      (0 ≤ (hsvToRgb hsv).g ∧ (hsvToRgb hsv).g ≤ 255) ∧
      (0 ≤ (hsvToRgb hsv).b ∧ (hsvToRgb hsv).b ≤ 255)) ∧
    (∀ cmyk : CMYKColor, 0 ≤ cmyk.c → cmyk.c ≤ 100 → 0 ≤ cmyk.m → cmyk.m ≤ 100 →
      0 ≤ cmyk.y → cmyk.y ≤ 100 → 0 ≤ cmyk.k → cmyk.k ≤ 100 →
      (0 ≤ (cmykToRgb cmyk).r ∧ (cmykToRgb cmyk).r ≤ 255) ∧
      (0 ≤ (cmykToRgb cmyk).g ∧ (cmykToRgb cmyk).g ≤ 255) ∧
      (0 ≤ (cmykToRgb cmyk).b ∧ (cmykToRgb cmyk).b ≤ 255)) := by
  refine ⟨fun hsv => ⟨isJsInt_jround _, isJsInt_jround _, isJsInt_jround _⟩,
          fun cmyk => ⟨isJsInt_jround _, isJsInt_jround _, isJsInt_jround _⟩,
          fun pw lab => ?_, fun yuv => ?_,
          fun hsv hh hs0 hs1 hv0 hv1 => hsvToRgb_mem hh hs0 hs1 hv0 hv1,
          fun cmyk hc0 hc1 hm0 hm1 hy0 hy1 hk0 hk1 =>
            cmykToRgb_mem hc0 hc1 hm0 hm1 hy0 hy1 hk0 hk1⟩
  · exact ⟨⟨(clamp_jround_mem _).1, (clamp_jround_mem _).2.1, (clamp_jround_mem _).2.2⟩,
           ⟨(clamp_jround_mem _).1, (clamp_jround_mem _).2.1, (clamp_jround_mem _).2.2⟩,
           ⟨(clamp_jround_mem _).1, (clamp_jround_mem _).2.1, (clamp_jround_mem _).2.2⟩⟩
  · exact ⟨⟨(clamp_jround_mem _).1, (clamp_jround_mem _).2.1, (clamp_jround_mem _).2.2⟩,
           ⟨(clamp_jround_mem _).1, (clamp_jround_mem _).2.1, (clamp_jround_mem _).2.2⟩,
           ⟨(clamp_jround_mem _).1, (clamp_jround_mem _).2.1, (clamp_jround_mem _).2.2⟩⟩

/-- Witness for claim C4 (`inverse_converters_round_and_clamp`): in-range inputs land in
`[0, 255]`. -/
theorem inverse_converters_round_and_clamp_witness :
    (0 ≤ (hsvToRgb { h := 10, s := 50, v := 50 }).r ∧
      (hsvToRgb { h := 10, s := 50, v := 50 }).r ≤ 255) ∧
    (0 ≤ (cmykToRgb { c := 10, m := 20, y := 30, k := 40 }).g ∧
      (cmykToRgb { c := 10, m := 20, y := 30, k := 40 }).g ≤ 255) :=
  ⟨(inverse_converters_round_and_clamp.2.2.2.2.1 { h := 10, s := 50, v := 50 }
      (by norm_num) (by norm_num) (by norm_num) (by norm_num) (by norm_num)).1,
   (inverse_converters_round_and_clamp.2.2.2.2.2 { c := 10, m := 20, y := 30, k := 40 }
      (by norm_num) (by norm_num) (by norm_num) (by norm_num) (by norm_num)
      (by norm_num) (by norm_num) (by norm_num)).2.1⟩

/-- Claim C2 (counterexample): in YUV mode a present all-zero delta record is not
a no-op: the zero-delta path still runs the (non-inverse) YUV round trip on
each pixel before the visualization remap, changing the output. -/
theorem zero_adjustment_not_noop :
    transformImageData qpow0 [{ r := 200, g := 0, b := 0, a := 255 }] ColorModel.YUV
        (some { yuv := some { y := some 0, u := some 0, v := some 0 } }) ≠
      transformImageData qpow0 [{ r := 200, g := 0, b := 0, a := 255 }] ColorModel.YUV
        none := by
  have h1 : transformImageData qpow0 [{ r := 200, g := 0, b := 0, a := 255 }]
      ColorModel.YUV (some { yuv := some { y := some 0, u := some 0, v := some 0 } }) =
      [{ r := 71, g := 97, b := 255, a := 255 }] := by
    norm_num [transformImageData, transformPixel, vizPixel, adjustRgb, rgbToYuv, yuvToRgb,
      ucl, jround, orZero, max_def, min_def]
    omega
  have h2 : transformImageData qpow0 [{ r := 200, g := 0, b := 0, a := 255 }]
      ColorModel.YUV none = [{ r := 60, g := 98, b := 251, a := 255 }] := by
    norm_num [transformImageData, transformPixel, vizPixel, adjustRgb, rgbToYuv,
      ucl, jround, max_def, min_def]
    omega
  rw [h1, h2]
  decide

/-- Claim C2 (amended): in RGB mode a present zero-delta record is a no-op
equivalent to passing no adjustments, for every well-formed byte buffer. -/
theorem zero_rgb_adjustment_noop (pw : ℚ → ℚ → ℚ) (d : RGBAdj) (buf : List Pixel)
    (hr : orZero d.r = 0) (hg : orZero d.g = 0) (hb : orZero d.b = 0)
    (hbuf : ∀ px ∈ buf, px.r ≤ 255 ∧ px.g ≤ 255 ∧ px.b ≤ 255) :
    transformImageData pw buf ColorModel.RGB (some { rgb := some d }) =
      transformImageData pw buf ColorModel.RGB none := by
  unfold transformImageData
  apply List.map_congr_left
  intro px hpx
  obtain ⟨h1, h2, h3⟩ := hbuf px hpx
  unfold transformPixel
  congr 1
  show ({ r := max 0 (min 255 ((px.r : ℚ) + orZero d.r)),
          g := max 0 (min 255 ((px.g : ℚ) + orZero d.g)),
          b := max 0 (min 255 ((px.b : ℚ) + orZero d.b)) } : RGBColor) =
    { r := (px.r : ℚ), g := (px.g : ℚ), b := (px.b : ℚ) }
  rw [hr, hg, hb]
  have e : ∀ n : ℕ, n ≤ 255 → max 0 (min 255 ((n : ℚ) + 0)) = (n : ℚ) := by
    intro n hn
    rw [add_zero, min_eq_right (by exact_mod_cast hn), max_eq_right (by positivity)]
  rw [e px.r h1, e px.g h2, e px.b h3]

/-- Witness for claim C2 (`zero_rgb_adjustment_noop`) on a one-pixel buffer. -/
theorem zero_rgb_adjustment_noop_witness :
    transformImageData qpow0 [{ r := 1, g := 2, b := 3, a := 4 }] ColorModel.RGB
        (some { rgb := some { r := some 0, g := some 0, b := some 0 } }) =
      transformImageData qpow0 [{ r := 1, g := 2, b := 3, a := 4 }] ColorModel.RGB
        none :=
  zero_rgb_adjustment_noop qpow0 _ _ (by norm_num [orZero]) (by norm_num [orZero])
    (by norm_num [orZero])
    (by
      intro px hpx
      simp only [List.mem_singleton] at hpx
      subst hpx
      norm_num)

/-- Claim C3: the transformed buffer has the length of the input and carries the
input alpha byte of every pixel unchanged. -/
theorem transform_length_and_alpha (pw : ℚ → ℚ → ℚ) (buf : List Pixel)
    (model : ColorModel) (adjustments : Option ColorAdjustments) :
    (transformImageData pw buf model adjustments).length = buf.length ∧
    ∀ i : ℕ, ((transformImageData pw buf model adjustments)[i]?).map Pixel.a =
      (buf[i]?).map Pixel.a := by
  refine ⟨by simp [transformImageData], fun i => ?_⟩
  unfold transformImageData
  rw [List.getElem?_map]
  cases buf[i]? with
  | none => rfl
  | some px => simp [Option.map, transformPixel_alpha]

/-- Claim C7 (counterexample): at the black pixel the LAB visualization writes
`128` into the blue channel because the code offsets b* by `+128` just like
a*; writing the raw b* (which is 0 at black) would store `0`. -/
theorem lab_blue_offset_counterexample :
    transformImageData qpow0 [{ r := 0, g := 0, b := 0, a := 77 }] ColorModel.LAB none =
      [{ r := 0, g := 128, b := 128, a := 77 }] ∧
    (rgbToLab qpow0 { r := 0, g := 0, b := 0 }).b = 0 ∧
    ucl (max 0 (min 255 (rgbToLab qpow0 { r := 0, g := 0, b := 0 }).b)) = 0 ∧
    (transformImageData qpow0 [{ r := 0, g := 0, b := 0, a := 77 }] ColorModel.LAB
        none).map Pixel.b ≠
      [ucl (max 0 (min 255 (rgbToLab qpow0 { r := 0, g := 0, b := 0 }).b))] := by
  have hb : (rgbToLab qpow0 { r := 0, g := 0, b := 0 }).b = 0 := by
    norm_num [rgbToLab, qpow0, jround]
  have hcl : ucl (max 0 (min 255 (rgbToLab qpow0 { r := 0, g := 0, b := 0 }).b)) = 0 := by
    rw [hb]
    norm_num [ucl]
  have hout : transformImageData qpow0 [{ r := 0, g := 0, b := 0, a := 77 }]
      ColorModel.LAB none = [{ r := 0, g := 128, b := 128, a := 77 }] := by
    norm_num [transformImageData, transformPixel, vizPixel, adjustRgb, rgbToLab, qpow0,
      ucl, jround, max_def, min_def]
    omega
  refine ⟨hout, hb, hcl, ?_⟩
  rw [hout, hcl]
  decide

/-- Claim C7 (amended): in LAB mode the visualization writes, for every pixel,
`clamp(L · 2.55)` into red, `clamp(a* + 128)` into green, and
`clamp(b* + 128)` into blue (the `+128` offset is applied to both a* and b*),
leaving alpha unchanged. -/
theorem lab_visualization_channels (pw : ℚ → ℚ → ℚ)
    (adjustments : Option ColorAdjustments) (buf : List Pixel) :
    transformImageData pw buf ColorModel.LAB adjustments =
      buf.map (fun px =>
        { r := ucl (max 0 (min 255
            ((rgbToLab pw (adjustRgb pw ColorModel.LAB adjustments
              { r := px.r, g := px.g, b := px.b })).l * 2.55))),
          g := ucl (max 0 (min 255
            ((rgbToLab pw (adjustRgb pw ColorModel.LAB adjustments
              { r := px.r, g := px.g, b := px.b })).a + 128))),
          b := ucl (max 0 (min 255
            ((rgbToLab pw (adjustRgb pw ColorModel.LAB adjustments
              { r := px.r, g := px.g, b := px.b })).b + 128))),
          a := px.a }) := rfl

/-- Adding 370 to the hue is the same adjustment as adding 10: the stored hue
is nonnegative, and `(h + d + 360) % 360` cancels full turns. -/
theorem adjustRgb_hue_370_eq_10 (pw : ℚ → ℚ → ℚ) (ds dv : Option ℚ)
    (rgb : RGBColor) :
    adjustRgb pw ColorModel.HSV (some { hsv := some { h := some 370, s := ds, v := dv } }) rgb =
      adjustRgb pw ColorModel.HSV (some { hsv := some { h := some 10, s := ds, v := dv } }) rgb := by
  have h0 := rgbToHsv_h_nonneg rgb
  show hsvToRgb { h := jsMod ((rgbToHsv rgb).h + orZero (some 370) + 360) 360,
                  s := max 0 (min 100 ((rgbToHsv rgb).s + orZero ds)),
                  v := max 0 (min 100 ((rgbToHsv rgb).v + orZero dv)) } =
    hsvToRgb { h := jsMod ((rgbToHsv rgb).h + orZero (some 10) + 360) 360,
               s := max 0 (min 100 ((rgbToHsv rgb).s + orZero ds)),
               v := max 0 (min 100 ((rgbToHsv rgb).v + orZero dv)) }
  have e : jsMod ((rgbToHsv rgb).h + orZero (some 370) + 360) 360 =
      jsMod ((rgbToHsv rgb).h + orZero (some 10) + 360) 360 := by
    simp only [orZero, Option.getD_some]
    have e2 : (rgbToHsv rgb).h + 370 + 360 = ((rgbToHsv rgb).h + 10 + 360) + 360 := by
      ring
    rw [e2, jsMod_add_cancel (by linarith) (by norm_num)]
  rw [e]

/-- Claim C8: over any pixel buffer, an HSV adjustment with hue delta `+370`
produces exactly the same output as hue delta `+10` (with identical
saturation/value deltas): hue wraps modulo 360 instead of clamping. -/
theorem hue_adjustment_wraps (pw : ℚ → ℚ → ℚ) (ds dv : Option ℚ)
    (buf : List Pixel) :
    transformImageData pw buf ColorModel.HSV
        (some { hsv := some { h := some 370, s := ds, v := dv } }) =
      transformImageData pw buf ColorModel.HSV
        (some { hsv := some { h := some 10, s := ds, v := dv } }) := by
  unfold transformImageData
  apply List.map_congr_left
  intro px _
  unfold transformPixel
  rw [adjustRgb_hue_370_eq_10]

/-- A concrete canvas for exercising the pixel probe. -/
def probeCanvas : Canvas :=
  { width := 2, height := 2, pixels := fun _ _ => { r := 7, g := 9, b := 11, a := 255 },
    tainted := false }

/-- Claim C9 (counterexample): a probe outside the canvas bounds does not yield
"no reading": per the HTML `getImageData` semantics the out-of-bounds pixel
reads as transparent black, so the handler publishes the reading
`RGB(0, 0, 0)`. -/
theorem probe_out_of_bounds_reads_black :
    handleInteraction qpow0 probeCanvas ColorModel.RGB 5 0 = some ("RGB(0, 0, 0)") ∧
    (handleInteraction qpow0 probeCanvas ColorModel.RGB 5 0).isSome = true :=
  ⟨rfl, rfl⟩

/-- Claim C9 (amended): an out-of-bounds probe never propagates an exception:
on an untainted canvas it yields the transparent-black reading, and when the
pixel read throws (tainted canvas) the handler swallows the exception and
yields no reading. -/
theorem probe_out_of_bounds_silent (pw : ℚ → ℚ → ℚ) (cv : Canvas)
    (model : ColorModel) (x y : ℤ)
    (hout : ¬(0 ≤ x ∧ x < (cv.width : ℤ) ∧ 0 ≤ y ∧ y < (cv.height : ℤ))) :
    (cv.tainted = false →
      handleInteraction pw cv model x y =
        some (getColorInModel pw { r := 0, g := 0, b := 0 } model)) ∧
    (cv.tainted = true → handleInteraction pw cv model x y = none) := by
  constructor <;> intro ht <;>
    simp [handleInteraction, probeBody, getImageData1, ht, hout, Except.bind]

/-- Witness for claim C9 (`probe_out_of_bounds_silent`) at a concrete canvas and
coordinate. -/
theorem probe_out_of_bounds_silent_witness :
    handleInteraction qpow0 probeCanvas ColorModel.RGB 5 0 =
      some (getColorInModel qpow0 { r := 0, g := 0, b := 0 } ColorModel.RGB) :=
  (probe_out_of_bounds_silent qpow0 probeCanvas ColorModel.RGB 5 0 (by decide)).1 rfl

end ColorMagic
